import Mathlib

/-!
Shallow embedding of the CHIP-8 emulator in `src/app.c` (illej/chip-8).

Machine integers are modelled as `Nat` with explicit `% 2^w` applied exactly
where a C assignment truncates to a narrower type (`u8` register/memory
stores, `u16` program-counter/index/stack-pointer stores).  Byte arrays are
modelled as total functions `Nat → Nat`; the C type system guarantees stored
bytes are `< 256`, and the embedding applies `% 256` at every store that can
exceed a byte.  The graphics buffer is modelled as a total function so that
the out-of-range indices the C code can compute (see the draw-sprite clamp)
remain expressible.
-/

/-- Pointwise function update on `Nat`-indexed arrays (models `a[i] = v`). -/
def upd (f : Nat → Nat) (i v : Nat) : Nat → Nat :=
  fun j => if j = i then v else f j

/-- Write a list of bytes into memory at consecutive addresses starting at
`base` (models `fread`/the font copy loop writing `u8` cells). -/
def write_bytes (mem : Nat → Nat) (base : Nat) : List Nat → (Nat → Nat)
  | [] => mem
  | b :: bs => write_bytes (upd mem base (b % 256)) (base + 1) bs

/-- `struct emulator` from src/app.c, restricted to the chip8 fields (the SDL
window/renderer/texture handles are external-collaborator glue). -/
structure Emulator where
  memory : Nat → Nat
  rom_size : Nat
  registers : Nat → Nat
  index_register : Nat
  program_counter : Nat
  gfx : Nat → Nat
  draw_flag : Bool
  delay_timer : Nat
  sound_timer : Nat
  stack : Nat → Nat
  stack_ptr : Nat
  keys : Nat → Nat

/-- `font_set` from src/app.c. -/
def font_set : List Nat :=
  [0xF0, 0x90, 0x90, 0x90, 0xF0,
   0x20, 0x60, 0x20, 0x20, 0x70,
   0xF0, 0x10, 0xF0, 0x80, 0xF0,
   0xF0, 0x10, 0xF0, 0x10, 0xF0,
   0x90, 0x90, 0xF0, 0x10, 0x10,
   0xF0, 0x80, 0xF0, 0x10, 0xF0,
   0xF0, 0x80, 0xF0, 0x90, 0xF0,
   0xF0, 0x10, 0x20, 0x40, 0x40,
   0xF0, 0x90, 0xF0, 0x90, 0xF0,
   0xF0, 0x90, 0xF0, 0x10, 0xF0,
   0xF0, 0x90, 0xF0, 0x90, 0x90,
   0xE0, 0x90, 0xE0, 0x90, 0xE0,
   0xF0, 0x80, 0x80, 0x80, 0xF0,
   0xE0, 0x90, 0x90, 0x90, 0xE0,
   0xF0, 0x80, 0xF0, 0x80, 0xF0,
   0xF0, 0x80, 0xF0, 0x80, 0x80]

/-- chip8-relevant part of `init`: program counter to 0x200, font set copied
to 0x50..0x9F. -/
def init (emu : Emulator) : Emulator :=
  { emu with
    program_counter := 0x200,
    memory := write_bytes emu.memory 0x50 font_set }

/-- Opcode fetch: `memory[pc] << 8 | memory[pc + 1]` (src/app.c line 248). -/
def fetch (emu : Emulator) : Nat :=
  (emu.memory emu.program_counter) <<< 8 ||| emu.memory (emu.program_counter + 1)

/-- Timer section at the end of `emulation_cycle` (src/app.c lines 787-799):
decrement each timer when positive (the BEEP side effect at
`sound_timer == 1` goes to the external audio collaborator). -/
def timer_tick (emu : Emulator) : Emulator :=
  let e1 := if emu.delay_timer > 0 then { emu with delay_timer := emu.delay_timer - 1 } else emu
  if e1.sound_timer > 0 then { e1 with sound_timer := e1.sound_timer - 1 } else e1

/-- The FX0A key scan loop: for each pressed key `i` (ascending), store `i`
into register `x` and record that a key was pressed (src/app.c lines 656-666;
the `break` is commented out in the source, so the last, i.e. highest, pressed
index wins). -/
def key_scan (keys : Nat → Nat) (regs : Nat → Nat) (x : Nat) : (Nat → Nat) × Bool :=
  (List.range 16).foldl
    (fun acc i => if keys i ≠ 0 then (upd acc.1 x i, true) else acc)
    (regs, false)

/-- One row of the DXYN draw loop (src/app.c lines 571-591): for each set bit
of `row`, clamp the destination coordinate with `> 64 ? 64` / `> 32 ? 32`,
check collision against 0xFFFFFFFF and XOR the pixel. -/
def draw_row (vx vy row y : Nat) (acc : (Nat → Nat) × Nat) : (Nat → Nat) × Nat :=
  (List.range 8).foldl
    (fun acc2 x =>
      if row &&& (0x80 >>> x) ≠ 0 then
        let dest_x := if vx + x > 64 then 64 else vx + x
        let dest_y := if vy + y > 32 then 32 else vy + y
        let dest_pixel := dest_y * 64 + dest_x
        let vf := if acc2.1 dest_pixel = 0xFFFFFFFF then 1 else acc2.2
        (upd acc2.1 dest_pixel (acc2.1 dest_pixel ^^^ 0xFFFFFFFF), vf)
      else acc2)
    acc

/-- The DXYN draw loops: Nat.fold over the sprite rows, starting from flag 0
(`registers[0xF] = 0` precedes the loop in the source). -/
def draw_sprite (gfx : Nat → Nat) (mem : Nat → Nat) (idx vx vy height : Nat) :
    (Nat → Nat) × Nat :=
  (List.range height).foldl
    (fun acc y => draw_row vx vy (mem (idx + y)) y acc)
    (gfx, 0)

/-- The linear gfx indices the DXYN loops access (read and XOR-write) for a
given sprite, in order: exactly the `dest_pixel` values computed for set bits. -/
def draw_access_indices (mem : Nat → Nat) (idx vx vy height : Nat) : List Nat :=
  (List.range height).foldr
    (fun y rest =>
      ((List.range 8).filterMap
        (fun x =>
          if mem (idx + y) &&& (0x80 >>> x) ≠ 0 then
            let dest_x := if vx + x > 64 then 64 else vx + x
            let dest_y := if vy + y > 32 then 32 else vy + y
            some (dest_y * 64 + dest_x)
          else none)) ++ rest)
    []

/-- Switch body of `emulation_cycle` (src/app.c lines 250-785).
Result: (state after the switch, FX0A took the early `return`,
an "Unknown opcode" report was printed).  `rnd` models the ambient `rand ()`
call consumed by CXNN. -/
def exec_op (emu : Emulator) (rnd : Nat) : Emulator × Bool × Bool :=
  let opcode := fetch emu
  if opcode &&& 0xF000 = 0x0000 then
    if opcode &&& 0x00FF = 0x00E0 then
      -- 00E0: clear screen
      ({ emu with
          gfx := fun i => if i < 64 * 32 then 0 else emu.gfx i,
          draw_flag := true,
          program_counter := (emu.program_counter + 2) % 65536 }, false, false)
    else if opcode &&& 0x00FF = 0x00EE then
      -- 00EE: return from subroutine (u16 pre-decrement of stack_ptr)
      let sp := (emu.stack_ptr + 65535) % 65536
      ({ emu with
          stack_ptr := sp,
          program_counter := (emu.stack sp + 2) % 65536 }, false, false)
    else (emu, false, true)
  else if opcode &&& 0xF000 = 0x1000 then
    -- 1NNN: jump
    ({ emu with program_counter := opcode &&& 0x0FFF }, false, false)
  else if opcode &&& 0xF000 = 0x2000 then
    -- 2NNN: call subroutine
    ({ emu with
        stack := upd emu.stack emu.stack_ptr emu.program_counter,
        stack_ptr := (emu.stack_ptr + 1) % 65536,
        program_counter := opcode &&& 0x0FFF }, false, false)
  else if opcode &&& 0xF000 = 0x3000 then
    -- 3XNN: skip if VX == NN
    let vx := emu.registers ((opcode &&& 0x0F00) >>> 8)
    let nn := opcode &&& 0x00FF
    if vx = nn then
      ({ emu with program_counter := (emu.program_counter + 4) % 65536 }, false, false)
    else
      ({ emu with program_counter := (emu.program_counter + 2) % 65536 }, false, false)
  else if opcode &&& 0xF000 = 0x4000 then
    -- 4XNN: skip if VX != NN
    let vx := emu.registers ((opcode &&& 0x0F00) >>> 8)
    let nn := opcode &&& 0x00FF
    if vx ≠ nn then
      ({ emu with program_counter := (emu.program_counter + 4) % 65536 }, false, false)
    else
      ({ emu with program_counter := (emu.program_counter + 2) % 65536 }, false, false)
  else if opcode &&& 0xF000 = 0x5000 then
    -- 5XY0: skip if VX == VY
    let vx := emu.registers ((opcode &&& 0x0F00) >>> 8)
    let vy := emu.registers ((opcode &&& 0x00F0) >>> 4)
    if vx = vy then
      ({ emu with program_counter := (emu.program_counter + 4) % 65536 }, false, false)
    else
      ({ emu with program_counter := (emu.program_counter + 2) % 65536 }, false, false)
  else if opcode &&& 0xF000 = 0x6000 then
    -- 6XNN: VX = NN
    ({ emu with
        registers := upd emu.registers ((opcode &&& 0x0F00) >>> 8) (opcode &&& 0x00FF),
        program_counter := (emu.program_counter + 2) % 65536 }, false, false)
  else if opcode &&& 0xF000 = 0x7000 then
    -- 7XNN: VX += NN (u8 wrap, carry flag untouched)
    let index := (opcode &&& 0x0F00) >>> 8
    let nn := opcode &&& 0x00FF
    ({ emu with
        registers := upd emu.registers index ((emu.registers index + nn) % 256),
        program_counter := (emu.program_counter + 2) % 65536 }, false, false)
  else if opcode &&& 0xF000 = 0x8000 then
    if opcode &&& 0x000F = 0x0000 then
      -- 8XY0: VX = VY
      let vy := emu.registers ((opcode &&& 0x00F0) >>> 4)
      ({ emu with
          registers := upd emu.registers ((opcode &&& 0x0F00) >>> 8) vy,
          program_counter := (emu.program_counter + 2) % 65536 }, false, false)
    else if opcode &&& 0x000F = 0x0001 then
      -- 8XY1: VX |= VY
      let vy := emu.registers ((opcode &&& 0x00F0) >>> 4)
      let x := (opcode &&& 0x0F00) >>> 8
      ({ emu with
          registers := upd emu.registers x (emu.registers x ||| vy),
          program_counter := (emu.program_counter + 2) % 65536 }, false, false)
    else if opcode &&& 0x000F = 0x0002 then
      -- 8XY2: VX &= VY
      let vy := emu.registers ((opcode &&& 0x00F0) >>> 4)
      let x := (opcode &&& 0x0F00) >>> 8
      ({ emu with
          registers := upd emu.registers x (emu.registers x &&& vy),
          program_counter := (emu.program_counter + 2) % 65536 }, false, false)
    else if opcode &&& 0x000F = 0x0003 then
      -- 8XY3: VX ^= VY
      let vy := emu.registers ((opcode &&& 0x00F0) >>> 4)
      let x := (opcode &&& 0x0F00) >>> 8
      ({ emu with
          registers := upd emu.registers x (emu.registers x ^^^ vy),
          program_counter := (emu.program_counter + 2) % 65536 }, false, false)
    else if opcode &&& 0x000F = 0x0004 then
      -- 8XY4: VX += VY; the source sets VF = (vy > vx) BEFORE the add
      let vx := emu.registers ((opcode &&& 0x0F00) >>> 8)
      let vy := emu.registers ((opcode &&& 0x00F0) >>> 4)
      let regs1 := upd emu.registers 0xF (if vy > vx then 1 else 0)
      let x := (opcode &&& 0x0F00) >>> 8
      ({ emu with
          registers := upd regs1 x ((regs1 x + vy) % 256),
          program_counter := (emu.program_counter + 2) % 65536 }, false, false)
    else if opcode &&& 0x000F = 0x0005 then
      -- 8XY5: VX -= VY; VF = 0 on borrow else 1, set before the subtract
      let vx := emu.registers ((opcode &&& 0x0F00) >>> 8)
      let vy := emu.registers ((opcode &&& 0x00F0) >>> 4)
      let regs1 := upd emu.registers 0xF (if vy > vx then 0 else 1)
      let x := (opcode &&& 0x0F00) >>> 8
      ({ emu with
          registers := upd regs1 x ((regs1 x + 256 - vy % 256) % 256),
          program_counter := (emu.program_counter + 2) % 65536 }, false, false)
    else if opcode &&& 0x000F = 0x0006 then
      -- 8XY6: VF = VX & 1; VX >>= 1
      let vx := emu.registers ((opcode &&& 0x0F00) >>> 8)
      let regs1 := upd emu.registers 0xF (vx &&& 0x01)
      let x := (opcode &&& 0x0F00) >>> 8
      ({ emu with
          registers := upd regs1 x (regs1 x >>> 1),
          program_counter := (emu.program_counter + 2) % 65536 }, false, false)
    else if opcode &&& 0x000F = 0x0007 then
      -- 8XY7: VX = VY - VX; VF = 0 on borrow else 1
      let vx := emu.registers ((opcode &&& 0x0F00) >>> 8)
      let vy := emu.registers ((opcode &&& 0x00F0) >>> 4)
      let regs1 := upd emu.registers 0xF (if vx > vy then 0 else 1)
      let x := (opcode &&& 0x0F00) >>> 8
      ({ emu with
          registers := upd regs1 x ((vy + 256 - vx % 256) % 256),
          program_counter := (emu.program_counter + 2) % 65536 }, false, false)
    else if opcode &&& 0x000F = 0x000E then
      -- 8XYE: VF = VX >> 7; VX <<= 1 (u8 truncation)
      let regs1 := upd emu.registers 0xF (emu.registers ((opcode &&& 0x0F00) >>> 8) >>> 7)
      let x := (opcode &&& 0x0F00) >>> 8
      ({ emu with
          registers := upd regs1 x ((regs1 x <<< 1) % 256),
          program_counter := (emu.program_counter + 2) % 65536 }, false, false)
    else (emu, false, true)
  else if opcode &&& 0xF000 = 0x9000 then
    -- 9XY0: skip if VX != VY
    let vx := emu.registers ((opcode &&& 0x0F00) >>> 8)
    let vy := emu.registers ((opcode &&& 0x00F0) >>> 4)
    if vx ≠ vy then
      ({ emu with program_counter := (emu.program_counter + 4) % 65536 }, false, false)
    else
      ({ emu with program_counter := (emu.program_counter + 2) % 65536 }, false, false)
  else if opcode &&& 0xF000 = 0xA000 then
    -- ANNN: I = NNN
    ({ emu with
        index_register := opcode &&& 0x0FFF,
        program_counter := (emu.program_counter + 2) % 65536 }, false, false)
  else if opcode &&& 0xF000 = 0xB000 then
    -- BNNN: PC = NNN + V0
    ({ emu with
        program_counter := ((opcode &&& 0x0FFF) + emu.registers 0) % 65536 }, false, false)
  else if opcode &&& 0xF000 = 0xC000 then
    -- CXNN: VX = (rand () % 0xFF) & NN
    ({ emu with
        registers := upd emu.registers ((opcode &&& 0x0F00) >>> 8)
          ((rnd % 0xFF) &&& (opcode &&& 0x00FF)),
        program_counter := (emu.program_counter + 2) % 65536 }, false, false)
  else if opcode &&& 0xF000 = 0xD000 then
    -- DXYN: draw sprite.  The source also computes `x = vx % 64` and
    -- `y = vy % 32` here (lines 556-557), but both locals are shadowed by
    -- the loop variables and never used by the loop body.
    let vx := emu.registers ((opcode &&& 0x0F00) >>> 8)
    let vy := emu.registers ((opcode &&& 0x00F0) >>> 4)
    let height := opcode &&& 0x000F
    let r := draw_sprite emu.gfx emu.memory emu.index_register vx vy height
    ({ emu with
        gfx := r.1,
        registers := upd emu.registers 0xF r.2,
        draw_flag := true,
        program_counter := (emu.program_counter + 2) % 65536 }, false, false)
  else if opcode &&& 0xF000 = 0xE000 then
    if opcode &&& 0x00FF = 0x009E then
      -- EX9E: skip if key VX pressed
      let vx := emu.registers ((opcode &&& 0x0F00) >>> 8)
      if emu.keys vx ≠ 0 then
        ({ emu with program_counter := (emu.program_counter + 4) % 65536 }, false, false)
      else
        ({ emu with program_counter := (emu.program_counter + 2) % 65536 }, false, false)
    else if opcode &&& 0x00FF = 0x00A1 then
      -- EXA1: skip if key VX not pressed
      let vx := emu.registers ((opcode &&& 0x0F00) >>> 8)
      if emu.keys vx = 0 then
        ({ emu with program_counter := (emu.program_counter + 4) % 65536 }, false, false)
      else
        ({ emu with program_counter := (emu.program_counter + 2) % 65536 }, false, false)
    else (emu, false, true)
  else if opcode &&& 0xF000 = 0xF000 then
    if opcode &&& 0x00FF = 0x0007 then
      -- FX07: VX = delay_timer
      ({ emu with
          registers := upd emu.registers ((opcode &&& 0x0F00) >>> 8) emu.delay_timer,
          program_counter := (emu.program_counter + 2) % 65536 }, false, false)
    else if opcode &&& 0x00FF = 0x000A then
      -- FX0A: wait for key (early `return` when none pressed)
      let scan := key_scan emu.keys emu.registers ((opcode &&& 0x0F00) >>> 8)
      if scan.2 then
        ({ emu with
            registers := scan.1,
            program_counter := (emu.program_counter + 2) % 65536 }, false, false)
      else (emu, true, false)
    else if opcode &&& 0x00FF = 0x0015 then
      -- FX15: delay_timer = VX
      ({ emu with
          delay_timer := emu.registers ((opcode &&& 0x0F00) >>> 8) % 256,
          program_counter := (emu.program_counter + 2) % 65536 }, false, false)
    else if opcode &&& 0x00FF = 0x0018 then
      -- FX18: sound_timer = VX
      ({ emu with
          sound_timer := emu.registers ((opcode &&& 0x0F00) >>> 8) % 256,
          program_counter := (emu.program_counter + 2) % 65536 }, false, false)
    else if opcode &&& 0x00FF = 0x001E then
      -- FX1E: I += VX with 12-bit overflow flag
      let vx := emu.registers ((opcode &&& 0x0F00) >>> 8)
      let vf := if emu.index_register + vx > 0xFFF then 1 else 0
      ({ emu with
          registers := upd emu.registers 0xF vf,
          index_register := (emu.index_register + vx) % 65536,
          program_counter := (emu.program_counter + 2) % 65536 }, false, false)
    else if opcode &&& 0x00FF = 0x0029 then
      -- FX29: I = 0x50 + VX * 5
      let vx := emu.registers ((opcode &&& 0x0F00) >>> 8)
      ({ emu with
          index_register := (0x50 + vx * 5) % 65536,
          program_counter := (emu.program_counter + 2) % 65536 }, false, false)
    else if opcode &&& 0x00FF = 0x0033 then
      -- FX33: BCD of VX at I, I+1, I+2
      let i := emu.index_register
      let vx := emu.registers ((opcode &&& 0x0F00) >>> 8)
      ({ emu with
          memory := upd (upd (upd emu.memory i (vx / 100 % 256))
                             (i + 1) (vx / 10 % 10))
                        (i + 2) (vx % 100 % 10),
          program_counter := (emu.program_counter + 2) % 65536 }, false, false)
    else if opcode &&& 0x00FF = 0x0055 then
      -- FX55: dump V0..VX to memory at I
      let vx := (opcode &&& 0x0F00) >>> 8
      ({ emu with
          memory := (List.range (vx + 1)).foldl
            (fun m i => upd m (emu.index_register + i) (emu.registers i % 256)) emu.memory,
          program_counter := (emu.program_counter + 2) % 65536 }, false, false)
    else if opcode &&& 0x00FF = 0x0065 then
      -- FX65: load V0..VX from memory at I
      let vx := (opcode &&& 0x0F00) >>> 8
      ({ emu with
          registers := (List.range (vx + 1)).foldl
            (fun r i => upd r i (emu.memory (emu.index_register + i) % 256)) emu.registers,
          program_counter := (emu.program_counter + 2) % 65536 }, false, false)
    else (emu, false, true)
  else (emu, false, true)

/-- Result of one `emulation_cycle`: the final state and whether an
"Unknown opcode" report was printed. -/
structure CycleOut where
  emu : Emulator
  unknown : Bool

/-- `emulation_cycle` from src/app.c: opcode switch, then the timer section —
which the FX0A early `return` skips. -/
def emulation_cycle (emu : Emulator) (rnd : Nat) : CycleOut :=
  let r := exec_op emu rnd
  if r.2.1 then ⟨r.1, r.2.2⟩ else ⟨timer_tick r.1, r.2.2⟩

/-- Opcodes whose high nibble selects a polymorphic class (0x0, 0x8, 0xE, 0xF)
but whose secondary code hits the `default` branch of the corresponding inner
switch in `emulation_cycle`. -/
def unknown_secondary (op : Nat) : Bool :=
  (op &&& 0xF000 == 0x0000 && !(op &&& 0x00FF == 0x00E0) && !(op &&& 0x00FF == 0x00EE)) ||
  (op &&& 0xF000 == 0x8000 && !(op &&& 0x000F == 0x0000) && !(op &&& 0x000F == 0x0001) &&
    !(op &&& 0x000F == 0x0002) && !(op &&& 0x000F == 0x0003) && !(op &&& 0x000F == 0x0004) &&
    !(op &&& 0x000F == 0x0005) && !(op &&& 0x000F == 0x0006) && !(op &&& 0x000F == 0x0007) &&
    !(op &&& 0x000F == 0x000E)) ||
  (op &&& 0xF000 == 0xE000 && !(op &&& 0x00FF == 0x009E) && !(op &&& 0x00FF == 0x00A1)) ||
  (op &&& 0xF000 == 0xF000 && !(op &&& 0x00FF == 0x0007) && !(op &&& 0x00FF == 0x000A) &&
    !(op &&& 0x00FF == 0x0015) && !(op &&& 0x00FF == 0x0018) && !(op &&& 0x00FF == 0x001E) &&
    !(op &&& 0x00FF == 0x0029) && !(op &&& 0x00FF == 0x0033) && !(op &&& 0x00FF == 0x0055) &&
    !(op &&& 0x00FF == 0x0065))

/-- Loader failure taxonomy of `load_rom` (src/app.c lines 130-177): the
too-large rejection and the short-`fread` failure. -/
inductive LoadErr where
  | imageTooLarge : LoadErr
  | readErr : LoadErr
deriving DecidableEq

/-- `load_rom` from src/app.c for an opened file: `fileLen` is the size
reported by `fseek`/`ftell`, `bytesRead` the bytes `fread` actually delivers
(written in place into `memory[0x200..]` before the count is checked).
Returns the resulting state and `none` on success. -/
def load_rom (emu : Emulator) (fileLen : Nat) (bytesRead : List Nat) :
    Emulator × Option LoadErr :=
  if fileLen ≤ 0xFFF - 0x200 then
    let emu1 := { emu with memory := write_bytes emu.memory 0x200 bytesRead }
    if bytesRead.length = fileLen then
      ({ emu1 with rom_size := fileLen }, none)
    else
      (emu1, some LoadErr.readErr)
  else
    (emu, some LoadErr.imageTooLarge)

/-- All-zero machine state used as the base of concrete test states. -/
def emu_base : Emulator :=
  { memory := fun _ => 0
    rom_size := 0
    registers := fun _ => 0
    index_register := 0
    program_counter := 0x200
    gfx := fun _ => 0
    draw_flag := false
    delay_timer := 0
    sound_timer := 0
    stack := fun _ => 0
    stack_ptr := 0
    keys := fun _ => 0 }

/-- State poised at a register-add `8014` (V0 += V1) with V0 = 0xFF, V1 = 0x01:
the addition 0xFF + 0x01 carries. -/
def emu_c1_carry : Emulator :=
  { emu_base with
    memory := fun a => if a = 0x200 then 0x80 else if a = 0x201 then 0x14 else 0,
    registers := fun i => if i = 0 then 0xFF else if i = 1 then 0x01 else 0 }

/-- State poised at `8014` with V0 = 0x01, V1 = 0x01: no carry. -/
def emu_c1_nocarry : Emulator :=
  { emu_base with
    memory := fun a => if a = 0x200 then 0x80 else if a = 0x201 then 0x14 else 0,
    registers := fun i => if i = 0 then 0x01 else if i = 1 then 0x01 else 0 }

/-- State poised at a draw `D011` (X = V0 = 0, Y = V1 = 32, height 1) with a
one-pixel sprite row 0x80 at I = 0x300: the draw computes destination row 32,
one past the last framebuffer row 31. -/
def emu_c3_oob : Emulator :=
  { emu_base with
    memory := fun a => if a = 0x200 then 0xD0 else if a = 0x201 then 0x11 else
      if a = 0x300 then 0x80 else 0,
    registers := fun i => if i = 1 then 32 else 0,
    index_register := 0x300 }

/-- State poised at a draw `D011` with V0 = 64, V1 = 0: a mod-64 wrap of the
start column would put the pixel at column 0, but the code uses the raw value. -/
def emu_c4_nowrap : Emulator :=
  { emu_base with
    memory := fun a => if a = 0x200 then 0xD0 else if a = 0x201 then 0x11 else
      if a = 0x300 then 0x80 else 0,
    registers := fun i => if i = 0 then 64 else 0,
    index_register := 0x300 }

/-- State poised at a wait-for-key `F10A` with keys 3 and 5 pressed. -/
def emu_c7_keys : Emulator :=
  { emu_base with
    memory := fun a => if a = 0x200 then 0xF1 else if a = 0x201 then 0x0A else 0,
    keys := fun i => if i = 5 then 1 else if i = 3 then 1 else 0 }

/-- State poised at a wait-for-key `F10A` with no key pressed. -/
def emu_c7_nokeys : Emulator :=
  { emu_base with
    memory := fun a => if a = 0x200 then 0xF1 else if a = 0x201 then 0x0A else 0 }

/-- Machine initialized as at process start and loaded with the two-byte
program `12 01` (jump to the odd address 0x201). -/
def emu_c8_odd : Emulator := (load_rom (init emu_base) 2 [0x12, 0x01]).1

/-- State poised at a subroutine call `2346` with an empty stack. -/
def emu_c9_call : Emulator :=
  { emu_base with
    memory := fun a => if a = 0x200 then 0x23 else if a = 0x201 then 0x46 else 0 }

/-- State poised at a subroutine return `00EE` with stack [0x200] as
`emu_c9_call` leaves it. -/
def emu_c9_ret : Emulator :=
  { emu_base with
    memory := fun a => if a = 0x346 then 0x00 else if a = 0x347 then 0xEE else 0,
    program_counter := 0x346,
    stack := fun i => if i = 0 then 0x200 else 0,
    stack_ptr := 1 }

/-- State poised at a shift-right `8016` (X = 0, Y = 1) with V0 = 5, V1 = 7. -/
def emu_c10_shr : Emulator :=
  { emu_base with
    memory := fun a => if a = 0x200 then 0x80 else if a = 0x201 then 0x16 else 0,
    registers := fun i => if i = 0 then 5 else if i = 1 then 7 else 0 }

theorem upd_self (f : Nat → Nat) (i v : Nat) : upd f i v i = v := by
  simp [upd]

theorem upd_ne (f : Nat → Nat) (i v j : Nat) (h : j ≠ i) : upd f i v j = f j := by
  simp [upd, h]

theorem timer_tick_program_counter (e : Emulator) :
    (timer_tick e).program_counter = e.program_counter := by
  simp only [timer_tick]; split_ifs <;> rfl

theorem timer_tick_stack (e : Emulator) : (timer_tick e).stack = e.stack := by
  simp only [timer_tick]; split_ifs <;> rfl

theorem timer_tick_stack_ptr (e : Emulator) : (timer_tick e).stack_ptr = e.stack_ptr := by
  simp only [timer_tick]; split_ifs <;> rfl

theorem timer_tick_registers (e : Emulator) : (timer_tick e).registers = e.registers := by
  simp only [timer_tick]; split_ifs <;> rfl

theorem timer_tick_gfx (e : Emulator) : (timer_tick e).gfx = e.gfx := by
  simp only [timer_tick]; split_ifs <;> rfl

theorem timer_tick_memory (e : Emulator) : (timer_tick e).memory = e.memory := by
  simp only [timer_tick]; split_ifs <;> rfl

theorem cycle_emu_program_counter (s : Emulator) (rnd : Nat) :
    (emulation_cycle s rnd).emu.program_counter = (exec_op s rnd).1.program_counter := by
  simp only [emulation_cycle]; split_ifs <;> simp [timer_tick_program_counter]

theorem cycle_emu_stack (s : Emulator) (rnd : Nat) :
    (emulation_cycle s rnd).emu.stack = (exec_op s rnd).1.stack := by
  simp only [emulation_cycle]; split_ifs <;> simp [timer_tick_stack]

theorem cycle_emu_stack_ptr (s : Emulator) (rnd : Nat) :
    (emulation_cycle s rnd).emu.stack_ptr = (exec_op s rnd).1.stack_ptr := by
  simp only [emulation_cycle]; split_ifs <;> simp [timer_tick_stack_ptr]

theorem cycle_emu_registers (s : Emulator) (rnd : Nat) :
    (emulation_cycle s rnd).emu.registers = (exec_op s rnd).1.registers := by
  simp only [emulation_cycle]; split_ifs <;> simp [timer_tick_registers]

theorem cycle_unknown_eq (s : Emulator) (rnd : Nat) :
    (emulation_cycle s rnd).unknown = (exec_op s rnd).2.2 := by
  simp only [emulation_cycle]; split_ifs <;> rfl

/-- Claim C1 (code-bug evidence): executing the register add `8014` with
V0 = 0xFF and V1 = 0x01 wraps V0 to 0x00 but leaves the flag register 0xF at
0, because the source tests `vy > vx` (0x01 > 0xFF is false) instead of
detecting the wrap, contradicting the claim (and the carry comment in the
source); with V0 = V1 = 0x01 the result is 0x02 with flag 0, as claimed. -/
theorem c1_add_carry_flag_eval :
    ((emulation_cycle emu_c1_carry 0).emu.registers 0 = 0x00 ∧
     (emulation_cycle emu_c1_carry 0).emu.registers 0xF = 0) ∧
    ((emulation_cycle emu_c1_nocarry 0).emu.registers 0 = 0x02 ∧
     (emulation_cycle emu_c1_nocarry 0).emu.registers 0xF = 0) := by
  decide

/-- Claim C2 (counterexample): fetching the unknown-secondary instruction
word 0x0000 reports the unknown condition but does not advance the program
counter by 2 — the cycle leaves it unchanged, so the cycle loop stalls. -/
theorem c2_counterexample :
    (emulation_cycle emu_base 0).unknown = true ∧
    (emulation_cycle emu_base 0).emu.program_counter ≠ emu_base.program_counter + 2 := by
  decide

/-- Claim C3 (code-bug evidence): drawing a one-pixel sprite at (V0, V1) =
(0, 32) toggles the framebuffer cell at linear index 64 × 32 = 2048, one past
the last cell of the 2048-cell buffer: the clamp `> 32 ? 32` clamps to row 32,
not to the last in-bounds row 31, so the access is out of bounds. -/
theorem c3_draw_clamp_oob_eval :
    (emulation_cycle emu_c3_oob 0).emu.gfx (64 * 32) = 0xFFFFFFFF ∧
    emu_c3_oob.gfx (64 * 32) = 0 ∧
    draw_access_indices emu_c3_oob.memory emu_c3_oob.index_register
      (emu_c3_oob.registers 0) (emu_c3_oob.registers 1) 1 = [64 * 32] := by
  decide

/-- Claim C4 (code-bug evidence): drawing a one-pixel sprite at (V0, V1) =
(64, 0) toggles the cell at linear index 64 (the raw coordinate), not the cell
at index 0 that the mod-64 start coordinate would give: the wrapped locals
computed in the source are shadowed by the loop variables and never used. -/
theorem c4_draw_no_wrap_eval :
    emu_c4_nowrap.registers 0 = 64 ∧
    (emulation_cycle emu_c4_nowrap 0).emu.gfx 64 = 0xFFFFFFFF ∧
    (emulation_cycle emu_c4_nowrap 0).emu.gfx 0 = 0 := by
  decide

/-- Claim C2 (amended): for every instruction word whose high nibble selects a
polymorphic class (0x0, 0x8, 0xE, 0xF) but whose secondary code matches no
known operation, the cycle reports an unknown-instruction condition and
leaves the machine state unchanged apart from the end-of-cycle timer tick;
in particular the program counter does not advance. -/
theorem c2_unknown_secondary_noop (s : Emulator) (rnd : Nat)
    (h : unknown_secondary (fetch s) = true) :
    (emulation_cycle s rnd).unknown = true ∧
    (emulation_cycle s rnd).emu = timer_tick s := by
  simp only [unknown_secondary, Bool.or_eq_true, Bool.and_eq_true, beq_iff_eq,
    Bool.not_eq_true', beq_eq_false_iff_ne, ne_eq, and_assoc, or_assoc] at h
  have hex : exec_op s rnd = (s, false, true) := by
    rcases h with ⟨h0, h1, h2⟩ |
      ⟨h0, h1, h2, h3, h4, h5, h6, h7, h8, h9⟩ |
      ⟨h0, h1, h2⟩ |
      ⟨h0, h1, h2, h3, h4, h5, h6, h7, h8, h9⟩
    · simp [exec_op, h0, h1, h2]
    · simp [exec_op, h0, h1, h2, h3, h4, h5, h6, h7, h8, h9]
    · simp [exec_op, h0, h1, h2]
    · simp [exec_op, h0, h1, h2, h3, h4, h5, h6, h7, h8, h9]
  refine ⟨?_, ?_⟩
  · rw [cycle_unknown_eq, hex]
  · simp [emulation_cycle, hex]

/-- Claim C2 (witness): the amended no-op behaviour observed at the concrete
all-zero machine, whose fetched word 0x0000 has an unknown secondary code. -/
theorem c2_unknown_secondary_noop_witness :
    unknown_secondary (fetch emu_base) = true ∧
    ((emulation_cycle emu_base 0).unknown = true ∧
     (emulation_cycle emu_base 0).emu = timer_tick emu_base) :=
  ⟨by decide, c2_unknown_secondary_noop emu_base 0 (by decide)⟩

theorem write_bytes_outside (bs : List Nat) :
    ∀ (mem : Nat → Nat) (base a : Nat), a < base ∨ base + bs.length ≤ a →
      write_bytes mem base bs a = mem a := by
  induction bs with
  | nil => intro mem base a _; rfl
  | cons b bs ih =>
    intro mem base a ha
    simp only [List.length_cons] at ha
    rw [write_bytes]
    rw [ih (upd mem base (b % 256)) (base + 1) a (by omega)]
    exact upd_ne _ _ _ _ (by omega)

theorem write_bytes_getD (bs : List Nat) :
    ∀ (mem : Nat → Nat) (base i : Nat), i < bs.length →
      write_bytes mem base bs (base + i) = bs.getD i 0 % 256 := by
  induction bs with
  | nil => intro _ _ i hi; simp at hi
  | cons b bs ih =>
    intro mem base i hi
    rw [write_bytes]
    cases i with
    | zero =>
      rw [write_bytes_outside bs (upd mem base (b % 256)) (base + 1) (base + 0) (by omega)]
      simp [upd]
    | succ i =>
      have : base + (i + 1) = (base + 1) + i := by omega
      rw [this, ih (upd mem base (b % 256)) (base + 1) i (by simpa using hi)]
      rfl

/-- Claim C5: loading a program image of length L ≤ 3583 succeeds, copies the
input bytes verbatim to memory[0x200 .. 0x200+L) and records length L; an
image of length L > 3583 fails with the image-too-large condition. -/
theorem c5_load_rom_spec (emu : Emulator) (data : List Nat)
    (hbytes : ∀ b ∈ data, b < 256) :
    (data.length ≤ 3583 →
      (load_rom emu data.length data).2 = none ∧
      (load_rom emu data.length data).1.rom_size = data.length ∧
      (∀ i, i < data.length →
        (load_rom emu data.length data).1.memory (0x200 + i) = data.getD i 0)) ∧
    (3583 < data.length →
      (load_rom emu data.length data).2 = some LoadErr.imageTooLarge) := by
  constructor
  · intro hle
    have h1 : data.length ≤ 0xFFF - 0x200 := by omega
    rw [load_rom, if_pos h1, if_pos rfl]
    refine ⟨rfl, rfl, fun i hi => ?_⟩
    show write_bytes emu.memory 0x200 data (0x200 + i) = data.getD i 0
    rw [write_bytes_getD data emu.memory 0x200 i hi]
    have : data.getD i 0 < 256 := by
      rw [List.getD_eq_getElem data 0 hi]
      exact hbytes _ (List.getElem_mem hi)
    omega
  · intro hgt
    rw [load_rom, if_neg (by omega)]

/-- Claim C5 (witness): loading the two-byte image [0x12, 0x34] succeeds,
records length 2 and copies both bytes to 0x200 and 0x201. -/
theorem c5_load_rom_spec_witness :
    (([0x12, 0x34] : List Nat).length ≤ 3583) ∧
    (load_rom emu_base 2 [0x12, 0x34]).2 = none ∧
    (load_rom emu_base 2 [0x12, 0x34]).1.rom_size = 2 ∧
    (load_rom emu_base 2 [0x12, 0x34]).1.memory (0x200 + 0) = 0x12 ∧
    (load_rom emu_base 2 [0x12, 0x34]).1.memory (0x200 + 1) = 0x34 :=
  ⟨by decide,
   ((c5_load_rom_spec emu_base [0x12, 0x34] (by decide)).1 (by decide)).1,
   ((c5_load_rom_spec emu_base [0x12, 0x34] (by decide)).1 (by decide)).2.1,
   ((c5_load_rom_spec emu_base [0x12, 0x34] (by decide)).1 (by decide)).2.2 0 (by decide),
   ((c5_load_rom_spec emu_base [0x12, 0x34] (by decide)).1 (by decide)).2.2 1 (by decide)⟩

/-- Claim C6 (counterexample): a load whose source reports length 2 but
delivers only the single byte 0xAB fails with the read-error condition, yet
the byte is visible at memory[0x200] afterwards — a partial write. -/
theorem c6_counterexample :
    (load_rom emu_base 2 [0xAB]).2 = some LoadErr.readErr ∧
    (load_rom emu_base 2 [0xAB]).1.memory 0x200 = 0xAB ∧
    emu_base.memory 0x200 = 0 := by
  decide

/-- Claim C6 (amended): on an image-too-large failure the loader mutates
nothing; on a read-error failure every field except the program memory region
is unchanged (the recorded image length included), but the bytes actually
delivered before the failure are visible in memory from 0x200 — memory below
0x200 and beyond the delivered bytes is unchanged. -/
theorem c6_load_rom_failure_frame (emu : Emulator) (fileLen : Nat) (bytesRead : List Nat) :
    (3583 < fileLen → load_rom emu fileLen bytesRead = (emu, some LoadErr.imageTooLarge)) ∧
    (fileLen ≤ 3583 → bytesRead.length ≠ fileLen →
      (load_rom emu fileLen bytesRead).2 = some LoadErr.readErr ∧
      (load_rom emu fileLen bytesRead).1.rom_size = emu.rom_size ∧
      (load_rom emu fileLen bytesRead).1.registers = emu.registers ∧
      (load_rom emu fileLen bytesRead).1.index_register = emu.index_register ∧
      (load_rom emu fileLen bytesRead).1.program_counter = emu.program_counter ∧
      (load_rom emu fileLen bytesRead).1.gfx = emu.gfx ∧
      (load_rom emu fileLen bytesRead).1.draw_flag = emu.draw_flag ∧
      (load_rom emu fileLen bytesRead).1.delay_timer = emu.delay_timer ∧
      (load_rom emu fileLen bytesRead).1.sound_timer = emu.sound_timer ∧
      (load_rom emu fileLen bytesRead).1.stack = emu.stack ∧
      (load_rom emu fileLen bytesRead).1.stack_ptr = emu.stack_ptr ∧
      (load_rom emu fileLen bytesRead).1.keys = emu.keys ∧
      (∀ a, a < 0x200 → (load_rom emu fileLen bytesRead).1.memory a = emu.memory a) ∧
      (∀ a, 0x200 + bytesRead.length ≤ a →
        (load_rom emu fileLen bytesRead).1.memory a = emu.memory a)) := by
  constructor
  · intro hgt
    rw [load_rom, if_neg (by omega)]
  · intro hle hne
    rw [load_rom, if_pos (by omega : fileLen ≤ 0xFFF - 0x200), if_neg hne]
    refine ⟨rfl, rfl, rfl, rfl, rfl, rfl, rfl, rfl, rfl, rfl, rfl, rfl, ?_, ?_⟩
    · intro a ha
      exact write_bytes_outside bytesRead emu.memory 0x200 a (Or.inl ha)
    · intro a ha
      exact write_bytes_outside bytesRead emu.memory 0x200 a (Or.inr ha)

/-- Claim C6 (amended, witness): the failure-frame behaviour observed at the
concrete partial load of claim C6's counterexample. -/
theorem c6_load_rom_failure_frame_witness :
    (2 : Nat) ≤ 3583 ∧ ([0xAB] : List Nat).length ≠ 2 ∧
    (load_rom emu_base 2 [0xAB]).2 = some LoadErr.readErr ∧
    (load_rom emu_base 2 [0xAB]).1.rom_size = emu_base.rom_size :=
  ⟨by decide, by decide,
   ((c6_load_rom_failure_frame emu_base 2 [0xAB]).2 (by decide) (by decide)).1,
   ((c6_load_rom_failure_frame emu_base 2 [0xAB]).2 (by decide) (by decide)).2.1⟩

/-- Claim C9: from a state whose fetched word is a call (high nibble 0x2) with
program counter p and stack pointer s < 16, the cycle pushes p at stack slot
s, increments the stack pointer and jumps to NNN; any later state whose
fetched word is the return 0x00EE with the stack in that configuration
(pointer s + 1, slot s holding p) gets program counter p + 2 and stack
pointer restored to s. -/
theorem c9_call_return_round_trip (s1 s3 : Emulator) (rnd1 rnd3 : Nat)
    (hcall : fetch s1 &&& 0xF000 = 0x2000)
    (hsp : s1.stack_ptr < 16)
    (hpc : s1.program_counter + 2 < 65536)
    (hret : fetch s3 = 0x00EE)
    (hsp3 : s3.stack_ptr = s1.stack_ptr + 1)
    (hstk : s3.stack s1.stack_ptr = s1.program_counter) :
    ((emulation_cycle s1 rnd1).emu.program_counter = fetch s1 &&& 0x0FFF ∧
     (emulation_cycle s1 rnd1).emu.stack s1.stack_ptr = s1.program_counter ∧
     (emulation_cycle s1 rnd1).emu.stack_ptr = s1.stack_ptr + 1) ∧
    ((emulation_cycle s3 rnd3).emu.program_counter = s1.program_counter + 2 ∧
     (emulation_cycle s3 rnd3).emu.stack_ptr = s1.stack_ptr) := by
  refine ⟨⟨?_, ?_, ?_⟩, ?_, ?_⟩
  · rw [cycle_emu_program_counter]
    simp [exec_op, hcall]
  · rw [cycle_emu_stack]
    simp [exec_op, hcall, upd]
  · rw [cycle_emu_stack_ptr]
    simp [exec_op, hcall]
    omega
  · rw [cycle_emu_program_counter]
    have hA : (0x00EE : Nat) &&& 0xF000 = 0x0000 := by decide
    have hB : (0x00EE : Nat) &&& 0x00FF = 0x00EE := by decide
    simp [exec_op, hret, hA, hB]
    have hidx : (s3.stack_ptr + 65535) % 65536 = s1.stack_ptr := by omega
    rw [hidx, hstk]
    omega
  · rw [cycle_emu_stack_ptr]
    have hA : (0x00EE : Nat) &&& 0xF000 = 0x0000 := by decide
    have hB : (0x00EE : Nat) &&& 0x00FF = 0x00EE := by decide
    simp [exec_op, hret, hA, hB]
    omega

/-- Claim C9 (witness): the round trip observed concretely — a call `2346`
from program counter 0x200 with empty stack, then the return `00EE` with the
stack as the call left it, ends at program counter 0x202 with the stack
pointer back at 0. -/
theorem c9_call_return_round_trip_witness :
    fetch emu_c9_call &&& 0xF000 = 0x2000 ∧
    (((emulation_cycle emu_c9_call 0).emu.program_counter = fetch emu_c9_call &&& 0x0FFF ∧
      (emulation_cycle emu_c9_call 0).emu.stack emu_c9_call.stack_ptr =
        emu_c9_call.program_counter ∧
      (emulation_cycle emu_c9_call 0).emu.stack_ptr = emu_c9_call.stack_ptr + 1) ∧
     ((emulation_cycle emu_c9_ret 0).emu.program_counter =
        emu_c9_call.program_counter + 2 ∧
      (emulation_cycle emu_c9_ret 0).emu.stack_ptr = emu_c9_call.stack_ptr)) :=
  ⟨by decide,
   c9_call_return_round_trip emu_c9_call emu_c9_ret 0 0
     (by decide) (by decide) (by decide) (by decide) (by decide) (by decide)⟩

theorem foldl_scan_no_keys (keys : Nat → Nat) (x : Nat) :
    ∀ (l : List Nat) (acc : (Nat → Nat) × Bool), (∀ i ∈ l, keys i = 0) →
      l.foldl (fun acc i => if keys i ≠ 0 then (upd acc.1 x i, true) else acc) acc = acc := by
  intro l
  induction l with
  | nil => intro acc _; rfl
  | cons a l ih =>
    intro acc h
    simp only [List.foldl_cons]
    rw [if_neg (by simp [h a (List.mem_cons_self a l)])]
    exact ih acc fun i hi => h i (List.mem_cons_of_mem a hi)

theorem key_scan_no_keys (keys regs : Nat → Nat) (x : Nat)
    (h : ∀ i, i < 16 → keys i = 0) :
    key_scan keys regs x = (regs, false) := by
  unfold key_scan
  exact foldl_scan_no_keys keys x (List.range 16) (regs, false)
    fun i hi => h i (List.mem_range.mp hi)

theorem key_scan_highest (keys regs : Nat → Nat) (x k : Nat)
    (hk : k < 16) (hset : keys k ≠ 0)
    (habove : ∀ j, j < 16 → k < j → keys j = 0) :
    (key_scan keys regs x).1 x = k ∧ (key_scan keys regs x).2 = true := by
  unfold key_scan
  have h16 : (16 : Nat) = (k + 1) + (15 - k) := by omega
  rw [h16, List.range_add, List.foldl_append, List.range_succ, List.foldl_append]
  rw [foldl_scan_no_keys keys x ((List.range (15 - k)).map (k + 1 + ·)) _ ?_]
  · simp only [List.foldl_cons, List.foldl_nil]
    rw [if_pos hset]
    exact ⟨upd_self _ _ _, rfl⟩
  · intro i hi
    obtain ⟨j, hj, rfl⟩ := List.mem_map.mp hi
    exact habove _ (by have := List.mem_range.mp hj; omega) (by omega)

/-- Claim C7: at a wait-for-key instruction (FX0A), if no key flag is set the
cycle mutates nothing at all (the program counter included); if at least one
key flag is set, the highest-indexed set key is stored into register X and
the program counter advances by exactly 2 in that cycle. -/
theorem c7_wait_for_key (s : Emulator) (rnd : Nat)
    (hf : fetch s &&& 0xF000 = 0xF000)
    (hl : fetch s &&& 0x00FF = 0x000A)
    (hpc : s.program_counter + 2 < 65536) :
    ((∀ i, i < 16 → s.keys i = 0) → emulation_cycle s rnd = ⟨s, false⟩) ∧
    (∀ k, k < 16 → s.keys k ≠ 0 → (∀ j, j < 16 → k < j → s.keys j = 0) →
      (emulation_cycle s rnd).emu.registers ((fetch s &&& 0x0F00) >>> 8) = k ∧
      (emulation_cycle s rnd).emu.program_counter = s.program_counter + 2) := by
  constructor
  · intro h
    have hex : exec_op s rnd = (s, true, false) := by
      simp [exec_op, hf, hl, key_scan_no_keys s.keys s.registers _ h]
    simp [emulation_cycle, hex]
  · intro k hk hset habove
    obtain ⟨hx1, hx2⟩ :=
      key_scan_highest s.keys s.registers ((fetch s &&& 0x0F00) >>> 8) k hk hset habove
    have hex : exec_op s rnd =
        ({ s with
            registers := (key_scan s.keys s.registers ((fetch s &&& 0x0F00) >>> 8)).1,
            program_counter := (s.program_counter + 2) % 65536 }, false, false) := by
      simp [exec_op, hf, hl, hx2]
    constructor
    · rw [cycle_emu_registers, hex]
      exact hx1
    · rw [cycle_emu_program_counter, hex]
      show (s.program_counter + 2) % 65536 = s.program_counter + 2
      omega

/-- Claim C7 (witness): with keys 3 and 5 held at an F10A instruction, the
cycle stores 5 (the highest held index) in register 1 and advances the
program counter from 0x200 to 0x202. -/
theorem c7_wait_for_key_witness :
    fetch emu_c7_keys &&& 0xF000 = 0xF000 ∧
    (emulation_cycle emu_c7_keys 0).emu.registers ((fetch emu_c7_keys &&& 0x0F00) >>> 8) = 5 ∧
    (emulation_cycle emu_c7_keys 0).emu.program_counter = emu_c7_keys.program_counter + 2 :=
  ⟨by decide,
   ((c7_wait_for_key emu_c7_keys 0 (by decide) (by decide) (by decide)).2
      5 (by decide) (by decide) (by decide)).1,
   ((c7_wait_for_key emu_c7_keys 0 (by decide) (by decide) (by decide)).2
      5 (by decide) (by decide) (by decide)).2⟩

theorem fetch_set_registers (s : Emulator) (R : Nat → Nat) :
    fetch { s with registers := R } = fetch s := rfl

/-- Claim C10: the shift instructions ignore register Y entirely — shift-right
(8XY6) sets flag 0xF to bit 0 of register X and register X to its value
shifted right by 1; shift-left (8XYE) sets flag 0xF to bit 7 of register X
and register X to its value shifted left by 1 modulo 256; all other registers
are untouched, and changing register Y alone (Y distinct from X and 0xF)
changes neither the X result nor the flag result. -/
theorem c10_shifts_ignore_vy (s : Emulator) (rnd : Nat) (x y : Nat)
    (hop : fetch s &&& 0xF000 = 0x8000)
    (hx : (fetch s &&& 0x0F00) >>> 8 = x)
    (hy : (fetch s &&& 0x00F0) >>> 4 = y)
    (hxF : x ≠ 0xF)
    (hvx : s.registers x < 256) :
    ((fetch s &&& 0x000F = 0x0006) →
      (emulation_cycle s rnd).emu.registers x = s.registers x / 2 ∧
      (emulation_cycle s rnd).emu.registers 0xF = s.registers x % 2 ∧
      (∀ i, i ≠ x → i ≠ 0xF → (emulation_cycle s rnd).emu.registers i = s.registers i) ∧
      (∀ v, y ≠ x → y ≠ 0xF →
        (emulation_cycle { s with registers := upd s.registers y v } rnd).emu.registers x =
          (emulation_cycle s rnd).emu.registers x ∧
        (emulation_cycle { s with registers := upd s.registers y v } rnd).emu.registers 0xF =
          (emulation_cycle s rnd).emu.registers 0xF)) ∧
    ((fetch s &&& 0x000F = 0x000E) →
      (emulation_cycle s rnd).emu.registers x = s.registers x * 2 % 256 ∧
      (emulation_cycle s rnd).emu.registers 0xF = s.registers x / 128 ∧
      (∀ i, i ≠ x → i ≠ 0xF → (emulation_cycle s rnd).emu.registers i = s.registers i) ∧
      (∀ v, y ≠ x → y ≠ 0xF →
        (emulation_cycle { s with registers := upd s.registers y v } rnd).emu.registers x =
          (emulation_cycle s rnd).emu.registers x ∧
        (emulation_cycle { s with registers := upd s.registers y v } rnd).emu.registers 0xF =
          (emulation_cycle s rnd).emu.registers 0xF)) := by
  constructor
  · intro hsec
    have spec1 : ∀ (t : Emulator), fetch t = fetch s → t.registers x = s.registers x →
        (emulation_cycle t rnd).emu.registers x = s.registers x / 2 ∧
        (emulation_cycle t rnd).emu.registers 0xF = s.registers x % 2 := by
      intro t hft hrx
      have hopt : fetch t &&& 0xF000 = 0x8000 := by rw [hft]; exact hop
      have hsect : fetch t &&& 0x000F = 0x0006 := by rw [hft]; exact hsec
      have hxt : (fetch t &&& 0x0F00) >>> 8 = x := by rw [hft]; exact hx
      have hregs : (exec_op t rnd).1.registers =
          upd (upd t.registers 0xF (t.registers x &&& 0x01)) x
            ((upd t.registers 0xF (t.registers x &&& 0x01)) x >>> 1) := by
        simp [exec_op, hopt, hsect, hxt]
      constructor
      · rw [cycle_emu_registers, hregs, upd_self, upd_ne _ _ _ _ hxF, hrx,
          Nat.shiftRight_eq_div_pow]
      · rw [cycle_emu_registers, hregs, upd_ne _ _ _ _ (Ne.symm hxF), upd_self, hrx,
          Nat.and_one_is_mod]
    have hregs : (exec_op s rnd).1.registers =
        upd (upd s.registers 0xF (s.registers x &&& 0x01)) x
          ((upd s.registers 0xF (s.registers x &&& 0x01)) x >>> 1) := by
      simp [exec_op, hop, hsec, hx]
    refine ⟨(spec1 s rfl rfl).1, (spec1 s rfl rfl).2, ?_, ?_⟩
    · intro i hix hiF
      rw [cycle_emu_registers, hregs, upd_ne _ _ _ _ hix, upd_ne _ _ _ _ hiF]
    · intro v hyx hyF
      have h1 := spec1 { s with registers := upd s.registers y v }
        (fetch_set_registers s _) (upd_ne _ _ _ _ (Ne.symm hyx))
      have h2 := spec1 s rfl rfl
      exact ⟨by rw [h1.1, h2.1], by rw [h1.2, h2.2]⟩
  · intro hsec
    have spec1 : ∀ (t : Emulator), fetch t = fetch s → t.registers x = s.registers x →
        (emulation_cycle t rnd).emu.registers x = s.registers x * 2 % 256 ∧
        (emulation_cycle t rnd).emu.registers 0xF = s.registers x / 128 := by
      intro t hft hrx
      have hopt : fetch t &&& 0xF000 = 0x8000 := by rw [hft]; exact hop
      have hsect : fetch t &&& 0x000F = 0x000E := by rw [hft]; exact hsec
      have hxt : (fetch t &&& 0x0F00) >>> 8 = x := by rw [hft]; exact hx
      have hregs : (exec_op t rnd).1.registers =
          upd (upd t.registers 0xF (t.registers x >>> 7)) x
            ((upd t.registers 0xF (t.registers x >>> 7)) x <<< 1 % 256) := by
        simp [exec_op, hopt, hsect, hxt]
      constructor
      · rw [cycle_emu_registers, hregs, upd_self, upd_ne _ _ _ _ hxF, hrx,
          Nat.shiftLeft_eq]
      · rw [cycle_emu_registers, hregs, upd_ne _ _ _ _ (Ne.symm hxF), upd_self, hrx,
          Nat.shiftRight_eq_div_pow]
    have hregs : (exec_op s rnd).1.registers =
        upd (upd s.registers 0xF (s.registers x >>> 7)) x
          ((upd s.registers 0xF (s.registers x >>> 7)) x <<< 1 % 256) := by
      simp [exec_op, hop, hsec, hx]
    refine ⟨(spec1 s rfl rfl).1, (spec1 s rfl rfl).2, ?_, ?_⟩
    · intro i hix hiF
      rw [cycle_emu_registers, hregs, upd_ne _ _ _ _ hix, upd_ne _ _ _ _ hiF]
    · intro v hyx hyF
      have h1 := spec1 { s with registers := upd s.registers y v }
        (fetch_set_registers s _) (upd_ne _ _ _ _ (Ne.symm hyx))
      have h2 := spec1 s rfl rfl
      exact ⟨by rw [h1.1, h2.1], by rw [h1.2, h2.2]⟩

/-- Claim C10 (witness): the shift-right `8016` with V0 = 5 yields V0 = 2,
flag 1, and leaves V1 (= 7) untouched. -/
theorem c10_shifts_ignore_vy_witness :
    fetch emu_c10_shr &&& 0x000F = 0x0006 ∧
    (emulation_cycle emu_c10_shr 0).emu.registers 0 = 2 ∧
    (emulation_cycle emu_c10_shr 0).emu.registers 0xF = 1 ∧
    (emulation_cycle emu_c10_shr 0).emu.registers 1 = 7 :=
  ⟨by decide,
   ((c10_shifts_ignore_vy emu_c10_shr 0 0 1 (by decide) (by decide) (by decide)
       (by decide) (by decide)).1 (by decide)).1,
   ((c10_shifts_ignore_vy emu_c10_shr 0 0 1 (by decide) (by decide) (by decide)
       (by decide) (by decide)).1 (by decide)).2.1,
   ((c10_shifts_ignore_vy emu_c10_shr 0 0 1 (by decide) (by decide) (by decide)
       (by decide) (by decide)).1 (by decide)).2.2.1 1 (by decide) (by decide)⟩

/-- Claim C8 (counterexample): loading the two-byte program `12 01` — a jump
to address 0x201 — into the initialized machine and executing one cycle
leaves the program counter at the odd address 0x201, so the program counter
of a reachable state is not always even. -/
theorem c8_counterexample :
    (emulation_cycle emu_c8_odd 0).emu.program_counter = 0x201 ∧
    (emulation_cycle emu_c8_odd 0).emu.program_counter % 2 = 1 := by
  decide

set_option maxHeartbeats 2000000 in
/-- Claim C8 (amended): the program counter is initialized to 0x200 (even),
and one cycle preserves evenness of the program counter and of every stored
stack entry provided the executed jump/call target NNN is even and, for
jump-with-offset, NNN plus register 0 is even; an odd jump target (see the
counterexample) breaks the invariant. -/
theorem c8_pc_even_invariant :
    (∀ e : Emulator, (init e).program_counter % 2 = 0) ∧
    (∀ (s : Emulator) (rnd : Nat),
      s.program_counter % 2 = 0 →
      (∀ i, s.stack i % 2 = 0) →
      (fetch s &&& 0xF000 = 0x1000 → (fetch s &&& 0x0FFF) % 2 = 0) →
      (fetch s &&& 0xF000 = 0x2000 → (fetch s &&& 0x0FFF) % 2 = 0) →
      (fetch s &&& 0xF000 = 0xB000 → ((fetch s &&& 0x0FFF) + s.registers 0) % 2 = 0) →
      (emulation_cycle s rnd).emu.program_counter % 2 = 0 ∧
      (∀ i, (emulation_cycle s rnd).emu.stack i % 2 = 0)) := by
  constructor
  · intro e; simp [init]
  · intro s rnd h0 hstk h1 h2 hB
    have hret := hstk ((s.stack_ptr + 65535) % 65536)
    have key : (exec_op s rnd).1.program_counter % 2 = 0 ∧
        (∀ i, (exec_op s rnd).1.stack i % 2 = 0) := by
        by_cases hc0 : fetch s &&& 0xF000 = 0x0000
        · constructor
          · simp [exec_op, hc0]
            first
              | omega
              | exact h1 hc0
              | exact h2 hc0
              | (have hBv := hB hc0; omega)
              | (split_ifs <;> omega)
              | (split_ifs <;> dsimp only <;> omega)
          · intro i
            have hi := hstk i
            simp [exec_op, hc0, upd]
            first
              | omega
              | (split_ifs <;> omega)
              | (split_ifs <;> dsimp only <;> omega)
        · by_cases hc1 : fetch s &&& 0xF000 = 0x1000
          · constructor
            · simp [exec_op, hc1]
              first
                | omega
                | exact h1 hc1
                | exact h2 hc1
                | (have hBv := hB hc1; omega)
                | (split_ifs <;> omega)
                | (split_ifs <;> dsimp only <;> omega)
            · intro i
              have hi := hstk i
              simp [exec_op, hc1, upd]
              first
                | omega
                | (split_ifs <;> omega)
                | (split_ifs <;> dsimp only <;> omega)
          · by_cases hc2 : fetch s &&& 0xF000 = 0x2000
            · constructor
              · simp [exec_op, hc2]
                first
                  | omega
                  | exact h1 hc2
                  | exact h2 hc2
                  | (have hBv := hB hc2; omega)
                  | (split_ifs <;> omega)
                  | (split_ifs <;> dsimp only <;> omega)
              · intro i
                have hi := hstk i
                simp [exec_op, hc2, upd]
                first
                  | omega
                  | (split_ifs <;> omega)
                  | (split_ifs <;> dsimp only <;> omega)
            · by_cases hc3 : fetch s &&& 0xF000 = 0x3000
              · constructor
                · simp [exec_op, hc3]
                  first
                    | omega
                    | exact h1 hc3
                    | exact h2 hc3
                    | (have hBv := hB hc3; omega)
                    | (split_ifs <;> omega)
                    | (split_ifs <;> dsimp only <;> omega)
                · intro i
                  have hi := hstk i
                  simp [exec_op, hc3, upd]
                  first
                    | omega
                    | (split_ifs <;> omega)
                    | (split_ifs <;> dsimp only <;> omega)
              · by_cases hc4 : fetch s &&& 0xF000 = 0x4000
                · constructor
                  · simp [exec_op, hc4]
                    first
                      | omega
                      | exact h1 hc4
                      | exact h2 hc4
                      | (have hBv := hB hc4; omega)
                      | (split_ifs <;> omega)
                      | (split_ifs <;> dsimp only <;> omega)
                  · intro i
                    have hi := hstk i
                    simp [exec_op, hc4, upd]
                    first
                      | omega
                      | (split_ifs <;> omega)
                      | (split_ifs <;> dsimp only <;> omega)
                · by_cases hc5 : fetch s &&& 0xF000 = 0x5000
                  · constructor
                    · simp [exec_op, hc5]
                      first
                        | omega
                        | exact h1 hc5
                        | exact h2 hc5
                        | (have hBv := hB hc5; omega)
                        | (split_ifs <;> omega)
                        | (split_ifs <;> dsimp only <;> omega)
                    · intro i
                      have hi := hstk i
                      simp [exec_op, hc5, upd]
                      first
                        | omega
                        | (split_ifs <;> omega)
                        | (split_ifs <;> dsimp only <;> omega)
                  · by_cases hc6 : fetch s &&& 0xF000 = 0x6000
                    · constructor
                      · simp [exec_op, hc6]
                        first
                          | omega
                          | exact h1 hc6
                          | exact h2 hc6
                          | (have hBv := hB hc6; omega)
                          | (split_ifs <;> omega)
                          | (split_ifs <;> dsimp only <;> omega)
                      · intro i
                        have hi := hstk i
                        simp [exec_op, hc6, upd]
                        first
                          | omega
                          | (split_ifs <;> omega)
                          | (split_ifs <;> dsimp only <;> omega)
                    · by_cases hc7 : fetch s &&& 0xF000 = 0x7000
                      · constructor
                        · simp [exec_op, hc7]
                          first
                            | omega
                            | exact h1 hc7
                            | exact h2 hc7
                            | (have hBv := hB hc7; omega)
                            | (split_ifs <;> omega)
                            | (split_ifs <;> dsimp only <;> omega)
                        · intro i
                          have hi := hstk i
                          simp [exec_op, hc7, upd]
                          first
                            | omega
                            | (split_ifs <;> omega)
                            | (split_ifs <;> dsimp only <;> omega)
                      · by_cases hc8 : fetch s &&& 0xF000 = 0x8000
                        · by_cases hs80 : fetch s &&& 0x000F = 0x0000
                          · constructor
                            · simp [exec_op, hc8, hs80]
                              first
                                | omega
                                | exact h1 hc8
                                | exact h2 hc8
                                | (have hBv := hB hc8; omega)
                                | (split_ifs <;> omega)
                                | (split_ifs <;> dsimp only <;> omega)
                            · intro i
                              have hi := hstk i
                              simp [exec_op, hc8, hs80, upd]
                              first
                                | omega
                                | (split_ifs <;> omega)
                                | (split_ifs <;> dsimp only <;> omega)
                          · by_cases hs81 : fetch s &&& 0x000F = 0x0001
                            · constructor
                              · simp [exec_op, hc8, hs81]
                                first
                                  | omega
                                  | exact h1 hc8
                                  | exact h2 hc8
                                  | (have hBv := hB hc8; omega)
                                  | (split_ifs <;> omega)
                                  | (split_ifs <;> dsimp only <;> omega)
                              · intro i
                                have hi := hstk i
                                simp [exec_op, hc8, hs81, upd]
                                first
                                  | omega
                                  | (split_ifs <;> omega)
                                  | (split_ifs <;> dsimp only <;> omega)
                            · by_cases hs82 : fetch s &&& 0x000F = 0x0002
                              · constructor
                                · simp [exec_op, hc8, hs82]
                                  first
                                    | omega
                                    | exact h1 hc8
                                    | exact h2 hc8
                                    | (have hBv := hB hc8; omega)
                                    | (split_ifs <;> omega)
                                    | (split_ifs <;> dsimp only <;> omega)
                                · intro i
                                  have hi := hstk i
                                  simp [exec_op, hc8, hs82, upd]
                                  first
                                    | omega
                                    | (split_ifs <;> omega)
                                    | (split_ifs <;> dsimp only <;> omega)
                              · by_cases hs83 : fetch s &&& 0x000F = 0x0003
                                · constructor
                                  · simp [exec_op, hc8, hs83]
                                    first
                                      | omega
                                      | exact h1 hc8
                                      | exact h2 hc8
                                      | (have hBv := hB hc8; omega)
                                      | (split_ifs <;> omega)
                                      | (split_ifs <;> dsimp only <;> omega)
                                  · intro i
                                    have hi := hstk i
                                    simp [exec_op, hc8, hs83, upd]
                                    first
                                      | omega
                                      | (split_ifs <;> omega)
                                      | (split_ifs <;> dsimp only <;> omega)
                                · by_cases hs84 : fetch s &&& 0x000F = 0x0004
                                  · constructor
                                    · simp [exec_op, hc8, hs84]
                                      first
                                        | omega
                                        | exact h1 hc8
                                        | exact h2 hc8
                                        | (have hBv := hB hc8; omega)
                                        | (split_ifs <;> omega)
                                        | (split_ifs <;> dsimp only <;> omega)
                                    · intro i
                                      have hi := hstk i
                                      simp [exec_op, hc8, hs84, upd]
                                      first
                                        | omega
                                        | (split_ifs <;> omega)
                                        | (split_ifs <;> dsimp only <;> omega)
                                  · by_cases hs85 : fetch s &&& 0x000F = 0x0005
                                    · constructor
                                      · simp [exec_op, hc8, hs85]
                                        first
                                          | omega
                                          | exact h1 hc8
                                          | exact h2 hc8
                                          | (have hBv := hB hc8; omega)
                                          | (split_ifs <;> omega)
                                          | (split_ifs <;> dsimp only <;> omega)
                                      · intro i
                                        have hi := hstk i
                                        simp [exec_op, hc8, hs85, upd]
                                        first
                                          | omega
                                          | (split_ifs <;> omega)
                                          | (split_ifs <;> dsimp only <;> omega)
                                    · by_cases hs86 : fetch s &&& 0x000F = 0x0006
                                      · constructor
                                        · simp [exec_op, hc8, hs86]
                                          first
                                            | omega
                                            | exact h1 hc8
                                            | exact h2 hc8
                                            | (have hBv := hB hc8; omega)
                                            | (split_ifs <;> omega)
                                            | (split_ifs <;> dsimp only <;> omega)
                                        · intro i
                                          have hi := hstk i
                                          simp [exec_op, hc8, hs86, upd]
                                          first
                                            | omega
                                            | (split_ifs <;> omega)
                                            | (split_ifs <;> dsimp only <;> omega)
                                      · by_cases hs87 : fetch s &&& 0x000F = 0x0007
                                        · constructor
                                          · simp [exec_op, hc8, hs87]
                                            first
                                              | omega
                                              | exact h1 hc8
                                              | exact h2 hc8
                                              | (have hBv := hB hc8; omega)
                                              | (split_ifs <;> omega)
                                              | (split_ifs <;> dsimp only <;> omega)
                                          · intro i
                                            have hi := hstk i
                                            simp [exec_op, hc8, hs87, upd]
                                            first
                                              | omega
                                              | (split_ifs <;> omega)
                                              | (split_ifs <;> dsimp only <;> omega)
                                        · by_cases hs88 : fetch s &&& 0x000F = 0x000E
                                          · constructor
                                            · simp [exec_op, hc8, hs88]
                                              first
                                                | omega
                                                | exact h1 hc8
                                                | exact h2 hc8
                                                | (have hBv := hB hc8; omega)
                                                | (split_ifs <;> omega)
                                                | (split_ifs <;> dsimp only <;> omega)
                                            · intro i
                                              have hi := hstk i
                                              simp [exec_op, hc8, hs88, upd]
                                              first
                                                | omega
                                                | (split_ifs <;> omega)
                                                | (split_ifs <;> dsimp only <;> omega)
                                          · constructor
                                            · simp [exec_op, hc8, hs80, hs81, hs82, hs83, hs84, hs85, hs86, hs87, hs88]
                                              first
                                                | omega
                                                | exact h1 hc8
                                                | exact h2 hc8
                                                | (have hBv := hB hc8; omega)
                                                | (split_ifs <;> omega)
                                                | (split_ifs <;> dsimp only <;> omega)
                                            · intro i
                                              have hi := hstk i
                                              simp [exec_op, hc8, hs80, hs81, hs82, hs83, hs84, hs85, hs86, hs87, hs88, upd]
                                              first
                                                | omega
                                                | (split_ifs <;> omega)
                                                | (split_ifs <;> dsimp only <;> omega)
                        · by_cases hc9 : fetch s &&& 0xF000 = 0x9000
                          · constructor
                            · simp [exec_op, hc9]
                              first
                                | omega
                                | exact h1 hc9
                                | exact h2 hc9
                                | (have hBv := hB hc9; omega)
                                | (split_ifs <;> omega)
                                | (split_ifs <;> dsimp only <;> omega)
                            · intro i
                              have hi := hstk i
                              simp [exec_op, hc9, upd]
                              first
                                | omega
                                | (split_ifs <;> omega)
                                | (split_ifs <;> dsimp only <;> omega)
                          · by_cases hc10 : fetch s &&& 0xF000 = 0xA000
                            · constructor
                              · simp [exec_op, hc10]
                                first
                                  | omega
                                  | exact h1 hc10
                                  | exact h2 hc10
                                  | (have hBv := hB hc10; omega)
                                  | (split_ifs <;> omega)
                                  | (split_ifs <;> dsimp only <;> omega)
                              · intro i
                                have hi := hstk i
                                simp [exec_op, hc10, upd]
                                first
                                  | omega
                                  | (split_ifs <;> omega)
                                  | (split_ifs <;> dsimp only <;> omega)
                            · by_cases hc11 : fetch s &&& 0xF000 = 0xB000
                              · constructor
                                · simp [exec_op, hc11]
                                  first
                                    | omega
                                    | exact h1 hc11
                                    | exact h2 hc11
                                    | (have hBv := hB hc11; omega)
                                    | (split_ifs <;> omega)
                                    | (split_ifs <;> dsimp only <;> omega)
                                · intro i
                                  have hi := hstk i
                                  simp [exec_op, hc11, upd]
                                  first
                                    | omega
                                    | (split_ifs <;> omega)
                                    | (split_ifs <;> dsimp only <;> omega)
                              · by_cases hc12 : fetch s &&& 0xF000 = 0xC000
                                · constructor
                                  · simp [exec_op, hc12]
                                    first
                                      | omega
                                      | exact h1 hc12
                                      | exact h2 hc12
                                      | (have hBv := hB hc12; omega)
                                      | (split_ifs <;> omega)
                                      | (split_ifs <;> dsimp only <;> omega)
                                  · intro i
                                    have hi := hstk i
                                    simp [exec_op, hc12, upd]
                                    first
                                      | omega
                                      | (split_ifs <;> omega)
                                      | (split_ifs <;> dsimp only <;> omega)
                                · by_cases hc13 : fetch s &&& 0xF000 = 0xD000
                                  · constructor
                                    · simp [exec_op, hc13]
                                      first
                                        | omega
                                        | exact h1 hc13
                                        | exact h2 hc13
                                        | (have hBv := hB hc13; omega)
                                        | (split_ifs <;> omega)
                                        | (split_ifs <;> dsimp only <;> omega)
                                    · intro i
                                      have hi := hstk i
                                      simp [exec_op, hc13, upd]
                                      first
                                        | omega
                                        | (split_ifs <;> omega)
                                        | (split_ifs <;> dsimp only <;> omega)
                                  · by_cases hc14 : fetch s &&& 0xF000 = 0xE000
                                    · constructor
                                      · simp [exec_op, hc14]
                                        first
                                          | omega
                                          | exact h1 hc14
                                          | exact h2 hc14
                                          | (have hBv := hB hc14; omega)
                                          | (split_ifs <;> omega)
                                          | (split_ifs <;> dsimp only <;> omega)
                                      · intro i
                                        have hi := hstk i
                                        simp [exec_op, hc14, upd]
                                        first
                                          | omega
                                          | (split_ifs <;> omega)
                                          | (split_ifs <;> dsimp only <;> omega)
                                    · by_cases hc15 : fetch s &&& 0xF000 = 0xF000
                                      · by_cases hsF0 : fetch s &&& 0x00FF = 0x0007
                                        · constructor
                                          · simp [exec_op, hc15, hsF0]
                                            first
                                              | omega
                                              | exact h1 hc15
                                              | exact h2 hc15
                                              | (have hBv := hB hc15; omega)
                                              | (split_ifs <;> omega)
                                              | (split_ifs <;> dsimp only <;> omega)
                                          · intro i
                                            have hi := hstk i
                                            simp [exec_op, hc15, hsF0, upd]
                                            first
                                              | omega
                                              | (split_ifs <;> omega)
                                              | (split_ifs <;> dsimp only <;> omega)
                                        · by_cases hsF1 : fetch s &&& 0x00FF = 0x000A
                                          · constructor
                                            · simp [exec_op, hc15, hsF1]
                                              first
                                                | omega
                                                | exact h1 hc15
                                                | exact h2 hc15
                                                | (have hBv := hB hc15; omega)
                                                | (split_ifs <;> omega)
                                                | (split_ifs <;> dsimp only <;> omega)
                                            · intro i
                                              have hi := hstk i
                                              simp [exec_op, hc15, hsF1, upd]
                                              first
                                                | omega
                                                | (split_ifs <;> omega)
                                                | (split_ifs <;> dsimp only <;> omega)
                                          · by_cases hsF2 : fetch s &&& 0x00FF = 0x0015
                                            · constructor
                                              · simp [exec_op, hc15, hsF2]
                                                first
                                                  | omega
                                                  | exact h1 hc15
                                                  | exact h2 hc15
                                                  | (have hBv := hB hc15; omega)
                                                  | (split_ifs <;> omega)
                                                  | (split_ifs <;> dsimp only <;> omega)
                                              · intro i
                                                have hi := hstk i
                                                simp [exec_op, hc15, hsF2, upd]
                                                first
                                                  | omega
                                                  | (split_ifs <;> omega)
                                                  | (split_ifs <;> dsimp only <;> omega)
                                            · by_cases hsF3 : fetch s &&& 0x00FF = 0x0018
                                              · constructor
                                                · simp [exec_op, hc15, hsF3]
                                                  first
                                                    | omega
                                                    | exact h1 hc15
                                                    | exact h2 hc15
                                                    | (have hBv := hB hc15; omega)
                                                    | (split_ifs <;> omega)
                                                    | (split_ifs <;> dsimp only <;> omega)
                                                · intro i
                                                  have hi := hstk i
                                                  simp [exec_op, hc15, hsF3, upd]
                                                  first
                                                    | omega
                                                    | (split_ifs <;> omega)
                                                    | (split_ifs <;> dsimp only <;> omega)
                                              · by_cases hsF4 : fetch s &&& 0x00FF = 0x001E
                                                · constructor
                                                  · simp [exec_op, hc15, hsF4]
                                                    first
                                                      | omega
                                                      | exact h1 hc15
                                                      | exact h2 hc15
                                                      | (have hBv := hB hc15; omega)
                                                      | (split_ifs <;> omega)
                                                      | (split_ifs <;> dsimp only <;> omega)
                                                  · intro i
                                                    have hi := hstk i
                                                    simp [exec_op, hc15, hsF4, upd]
                                                    first
                                                      | omega
                                                      | (split_ifs <;> omega)
                                                      | (split_ifs <;> dsimp only <;> omega)
                                                · by_cases hsF5 : fetch s &&& 0x00FF = 0x0029
                                                  · constructor
                                                    · simp [exec_op, hc15, hsF5]
                                                      first
                                                        | omega
                                                        | exact h1 hc15
                                                        | exact h2 hc15
                                                        | (have hBv := hB hc15; omega)
                                                        | (split_ifs <;> omega)
                                                        | (split_ifs <;> dsimp only <;> omega)
                                                    · intro i
                                                      have hi := hstk i
                                                      simp [exec_op, hc15, hsF5, upd]
                                                      first
                                                        | omega
                                                        | (split_ifs <;> omega)
                                                        | (split_ifs <;> dsimp only <;> omega)
                                                  · by_cases hsF6 : fetch s &&& 0x00FF = 0x0033
                                                    · constructor
                                                      · simp [exec_op, hc15, hsF6]
                                                        first
                                                          | omega
                                                          | exact h1 hc15
                                                          | exact h2 hc15
                                                          | (have hBv := hB hc15; omega)
                                                          | (split_ifs <;> omega)
                                                          | (split_ifs <;> dsimp only <;> omega)
                                                      · intro i
                                                        have hi := hstk i
                                                        simp [exec_op, hc15, hsF6, upd]
                                                        first
                                                          | omega
                                                          | (split_ifs <;> omega)
                                                          | (split_ifs <;> dsimp only <;> omega)
                                                    · by_cases hsF7 : fetch s &&& 0x00FF = 0x0055
                                                      · constructor
                                                        · simp [exec_op, hc15, hsF7]
                                                          first
                                                            | omega
                                                            | exact h1 hc15
                                                            | exact h2 hc15
                                                            | (have hBv := hB hc15; omega)
                                                            | (split_ifs <;> omega)
                                                            | (split_ifs <;> dsimp only <;> omega)
                                                        · intro i
                                                          have hi := hstk i
                                                          simp [exec_op, hc15, hsF7, upd]
                                                          first
                                                            | omega
                                                            | (split_ifs <;> omega)
                                                            | (split_ifs <;> dsimp only <;> omega)
                                                      · by_cases hsF8 : fetch s &&& 0x00FF = 0x0065
                                                        · constructor
                                                          · simp [exec_op, hc15, hsF8]
                                                            first
                                                              | omega
                                                              | exact h1 hc15
                                                              | exact h2 hc15
                                                              | (have hBv := hB hc15; omega)
                                                              | (split_ifs <;> omega)
                                                              | (split_ifs <;> dsimp only <;> omega)
                                                          · intro i
                                                            have hi := hstk i
                                                            simp [exec_op, hc15, hsF8, upd]
                                                            first
                                                              | omega
                                                              | (split_ifs <;> omega)
                                                              | (split_ifs <;> dsimp only <;> omega)
                                                        · constructor
                                                          · simp [exec_op, hc15, hsF0, hsF1, hsF2, hsF3, hsF4, hsF5, hsF6, hsF7, hsF8]
                                                            first
                                                              | omega
                                                              | exact h1 hc15
                                                              | exact h2 hc15
                                                              | (have hBv := hB hc15; omega)
                                                              | (split_ifs <;> omega)
                                                              | (split_ifs <;> dsimp only <;> omega)
                                                          · intro i
                                                            have hi := hstk i
                                                            simp [exec_op, hc15, hsF0, hsF1, hsF2, hsF3, hsF4, hsF5, hsF6, hsF7, hsF8, upd]
                                                            first
                                                              | omega
                                                              | (split_ifs <;> omega)
                                                              | (split_ifs <;> dsimp only <;> omega)
                                      · constructor
                                        · simp [exec_op, hc0, hc1, hc2, hc3, hc4, hc5, hc6, hc7, hc8, hc9, hc10, hc11, hc12, hc13, hc14, hc15]
                                          first
                                            | omega
                                            | exact h1 hc0
                                            | exact h2 hc0
                                            | (have hBv := hB hc0; omega)
                                            | (split_ifs <;> omega)
                                            | (split_ifs <;> dsimp only <;> omega)
                                        · intro i
                                          have hi := hstk i
                                          simp [exec_op, hc0, hc1, hc2, hc3, hc4, hc5, hc6, hc7, hc8, hc9, hc10, hc11, hc12, hc13, hc14, hc15, upd]
                                          first
                                            | omega
                                            | (split_ifs <;> omega)
                                            | (split_ifs <;> dsimp only <;> omega)
    exact ⟨by rw [cycle_emu_program_counter]; exact key.1,
           fun i => by rw [cycle_emu_stack]; exact key.2 i⟩

/-- Claim C8 (amended, witness): the preservation step observed at the
all-zero machine, whose fetched word 0x0000 is not a jump. -/
theorem c8_pc_even_invariant_witness :
    emu_base.program_counter % 2 = 0 ∧
    (emulation_cycle emu_base 0).emu.program_counter % 2 = 0 ∧
    (emulation_cycle emu_base 0).emu.stack 3 % 2 = 0 :=
  ⟨by decide,
   (c8_pc_even_invariant.2 emu_base 0 (by decide) (fun i => rfl)
     (by decide) (by decide) (by decide)).1,
   (c8_pc_even_invariant.2 emu_base 0 (by decide) (fun i => rfl)
     (by decide) (by decide) (by decide)).2 3⟩
